import Mathlib

/-!
# Solace Protocol — verification of the gossip and consensus core

Shallow embedding of the two core subsystems of the Solace repository:

* `acp/src/gossip.rs` — the epidemic gossip protocol (`GossipMessage`,
  `GossipProtocol` and its message-cache / forwarding state machine);
* `framework/src/consensus.rs` — the Proof-of-Reputation consensus engine
  (`Validator`, `ConsensusEngine`, votes, finalization).

Modelling conventions:
* Rust `HashMap` / `HashSet` become association lists with replace-on-insert
  (`alookup` / `ainsert`) resp. duplicate-free lists (`hsInsert`).
* Machine integers (`u32`, `u64`, `usize`) become `Nat`; `saturating_sub`
  is `Nat` subtraction, which saturates at 0 by definition.
* `f64` fields and arithmetic are modelled over an arbitrary
  `LinearOrderedField`, with `ln` passed in as an explicit function; theorems
  about numeric facts instantiate it at `ℝ` with `Real.log`.
* Wall-clock values (`SystemTime`, `Instant`, `chrono`) become explicit `Nat`
  parameters (`now`) where the code reads the clock; time-based cache
  eviction is modelled as removal by an arbitrary predicate.
* Randomness (`rand::thread_rng` peer sampling) is modelled by an explicit
  choice oracle `Choice` supplied to each operation.
* `Result<T>` with the error values constructed in `consensus.rs` becomes
  `Except SolaceError T` (the two variants used there are modelled).
-/

namespace Solace

/-! ## Association-list model of `HashMap` -/

/-- Lookup in an association list (models `HashMap::get`). -/
def alookup {α : Type} : List (String × α) → String → Option α
  | [], _ => none
  | (k, v) :: rest, key => if k = key then some v else alookup rest key

/-- Insert-or-replace in an association list (models `HashMap::insert`). -/
def ainsert {α : Type} : List (String × α) → String → α → List (String × α)
  | [], key, val => [(key, val)]
  | (k, v) :: rest, key, val =>
      if k = key then (key, val) :: rest else (k, v) :: ainsert rest key val

/-- Update the value at a key if present (models `HashMap::get_mut`). -/
def aupdate {α : Type} (f : α → α) : List (String × α) → String → List (String × α)
  | [], _ => []
  | (k, v) :: rest, key =>
      if k = key then (k, f v) :: rest else (k, v) :: aupdate f rest key

/-! ## Gossip protocol (`acp/src/gossip.rs`) -/

/-- `GossipMessageType` from `gossip.rs`. -/
inductive GossipMessageType where
  | PeerAnnouncement
  | TransactionBroadcast
  | StateUpdate
  | HeartBeat
  | RoutingUpdate
  | ReputationUpdate
  | Custom (s : String)
deriving DecidableEq, Repr

/-- `GossipMessage` from `gossip.rs`.  The `timestamp`, `payload` and
`signature` fields are carried by the Rust struct but never read by the
control flow modelled here, so they are omitted. -/
structure GossipMessage where
  id : String
  message_type : GossipMessageType
  sender_id : String
  ttl : Nat
  hop_count : Nat
  routing_path : List String
deriving DecidableEq, Repr

/-- `GossipMessage::is_expired`: `self.ttl == 0 || self.hop_count > 10`. -/
def GossipMessage.is_expired (m : GossipMessage) : Bool :=
  m.ttl == 0 || decide (10 < m.hop_count)

/-- `GossipMessage::forward`: returns the mutated message together with the
`bool` the Rust method returns.  `saturating_sub` is `Nat` subtraction. -/
def GossipMessage.forward (m : GossipMessage) (node_id : String) :
    GossipMessage × Bool :=
  if m.is_expired then (m, false)
  else
    let m' : GossipMessage :=
      { m with ttl := m.ttl - 1, hop_count := m.hop_count + 1,
               routing_path := m.routing_path ++ [node_id] }
    (m', !m'.is_expired)

/-- `GossipConfig` (duration-valued fields are not used by the modelled
operations and are omitted). -/
structure GossipConfig where
  fanout : Nat
  message_ttl : Nat
  max_message_cache : Nat
deriving DecidableEq, Repr

/-- `GossipStats` (byte counters omitted; they only accumulate serialized
sizes). -/
structure GossipStats where
  messages_sent : Nat
  messages_received : Nat
  messages_forwarded : Nat
  duplicates_filtered : Nat
  expired_messages : Nat
deriving DecidableEq, Repr

def GossipStats.init : GossipStats :=
  { messages_sent := 0, messages_received := 0, messages_forwarded := 0,
    duplicates_filtered := 0, expired_messages := 0 }

/-- `GossipPeer` (the `last_seen` timestamp and latency are wall-clock data,
omitted; liveness maintenance is modelled by the peer's `is_active` flag). -/
structure GossipPeer where
  id : String
  message_count : Nat
  is_active : Bool
deriving DecidableEq, Repr

/-- `CacheEntry` from `gossip.rs` (`received_at` is wall-clock data, omitted;
time-based eviction is modelled as removal by a predicate). -/
structure CacheEntry where
  message : GossipMessage
  forwarded_to : List String
deriving DecidableEq, Repr

/-- `HashSet::insert` on the duplicate-free list model. -/
def hsInsert (l : List String) (x : String) : List String :=
  if l.contains x then l else l ++ [x]

def hsInsertAll (l : List String) (xs : List String) : List String :=
  xs.foldl hsInsert l

/-- The mutable state of a `GossipProtocol` node: peer map, message cache,
stats, the set of registered handler type tags, the log of handler
invocations (one entry per invocation, recording the message id — the
observable effect of `process_message`), and the outbound send queue. -/
structure GossipState where
  node_id : String
  config : GossipConfig
  peers : List (String × GossipPeer)
  message_cache : List (String × CacheEntry)
  handlers : List GossipMessageType
  handler_log : List String
  outbound : List (String × GossipMessage)
  stats : GossipStats
deriving DecidableEq, Repr

/-- `GossipProtocol::new`. -/
def GossipProtocol.new (node_id : String) (config : GossipConfig) : GossipState :=
  { node_id := node_id, config := config, peers := [], message_cache := [],
    handlers := [], handler_log := [], outbound := [], stats := GossipStats.init }

/-- A choice oracle modelling `choose_multiple(&mut rng, n)`: given the
available candidates and the requested count, pick the targets. -/
def Choice : Type := List String → Nat → List String

/-- `GossipProtocol::is_duplicate`: cache membership of the message id. -/
def is_duplicate (s : GossipState) (m : GossipMessage) : Bool :=
  (alookup s.message_cache m.id).isSome

/-- `GossipProtocol::cache_message`: insert a fresh entry with an empty
forward-set.  (The capacity/time-based cleanup is modelled by `evict`.) -/
def cache_message (s : GossipState) (m : GossipMessage) : GossipState :=
  { s with message_cache := (ainsert s.message_cache m.id { message := m, forwarded_to := [] }) }

/-- The per-peer update performed by `update_peer_info`. -/
def bump_peer (p : GossipPeer) : GossipPeer :=
  { p with message_count := p.message_count + 1, is_active := true }

/-- `GossipProtocol::update_peer_info`. -/
def update_peer_info (s : GossipState) (peer_id : String) : GossipState :=
  { s with peers := aupdate bump_peer s.peers peer_id }

/-- `GossipProtocol::process_message`: run the registered handler for the
type tag if any (recorded in `handler_log`), then update the sender's peer
record. -/
def process_message (s : GossipState) (m : GossipMessage) : GossipState :=
  let s1 :=
    if s.handlers.contains m.message_type then
      { s with handler_log := s.handler_log ++ [m.id] }
    else s
  update_peer_info s1 m.sender_id

/-- `GossipProtocol::should_forward`. -/
def should_forward (s : GossipState) (m : GossipMessage) : Bool :=
  if m.sender_id == s.node_id then false
  else if m.is_expired then false
  else
    match alookup s.message_cache m.id with
    | some entry => decide (entry.forwarded_to.length < s.config.fanout)
    | none => true

/-- `GossipProtocol::select_forward_targets`: active peers other than the
sender and the routing path; `min(fanout, |available|)` of them are chosen
by the oracle. -/
def select_forward_targets (choose : Choice) (s : GossipState)
    (m : GossipMessage) : List String :=
  let available :=
    ((s.peers.map Prod.snd).filter
      (fun p => p.is_active && p.id != m.sender_id &&
        !(m.routing_path.contains p.id))).map (fun p => p.id)
  choose available (min s.config.fanout available.length)

/-- `GossipProtocol::select_gossip_targets`: all active peers;
`min(fanout, |active|)` chosen by the oracle. -/
def select_gossip_targets (choose : Choice) (s : GossipState) : List String :=
  let active := ((s.peers.map Prod.snd).filter (fun p => p.is_active)).map (fun p => p.id)
  choose active (min s.config.fanout active.length)

/-- `GossipProtocol::forward_message`: mutate via `GossipMessage::forward`;
if still live, enqueue to the selected targets and record them into the
cache entry's forward-set — but only if an entry for the id exists
(`cache.get_mut`), exactly as in the source. -/
def forward_message (choose : Choice) (s : GossipState) (m : GossipMessage) :
    GossipState :=
  let fm := m.forward s.node_id
  if !fm.2 then s
  else
    let m' := fm.1
    let targets := select_forward_targets choose s m'
    let s1 := { s with outbound := s.outbound ++ targets.map (fun p => (p, m')) }
    let s2 :=
      match alookup s1.message_cache m'.id with
      | some entry =>
          { s1 with message_cache := (ainsert s1.message_cache m'.id { entry with forwarded_to := hsInsertAll entry.forwarded_to targets }) }
      | none => s1
    { s2 with stats := { s2.stats with messages_forwarded := s2.stats.messages_forwarded + 1 } }

/-- `GossipProtocol::handle_incoming_message`, step for step:
count receipt; drop duplicates (counting them); drop expired (counting
them); otherwise process and possibly forward. -/
def handle_incoming_message (choose : Choice) (s : GossipState)
    (m : GossipMessage) : GossipState :=
  let s0 := { s with stats := { s.stats with messages_received := s.stats.messages_received + 1 } }
  if is_duplicate s0 m then
    { s0 with stats := { s0.stats with duplicates_filtered := s0.stats.duplicates_filtered + 1 } }
  else if m.is_expired then
    { s0 with stats := { s0.stats with expired_messages := s0.stats.expired_messages + 1 } }
  else
    let s1 := process_message s0 m
    if should_forward s1 m then forward_message choose s1 m else s1

/-- `GossipProtocol::gossip_message` (also the body of `broadcast` after
message construction): cache, select targets, enqueue, count. -/
def gossip_message (choose : Choice) (s : GossipState) (m : GossipMessage) :
    GossipState :=
  let s1 := cache_message s m
  let targets := select_gossip_targets choose s1
  let s2 := { s1 with outbound := s1.outbound ++ targets.map (fun p => (p, m)) }
  { s2 with stats := { s2.stats with messages_sent := s2.stats.messages_sent + 1 } }

/-- `GossipProtocol::add_peer`. -/
def add_peer (s : GossipState) (peer_id : String) : GossipState :=
  { s with peers := (ainsert s.peers peer_id { id := peer_id, message_count := 0, is_active := true }) }

/-- `GossipProtocol::remove_peer`. -/
def remove_peer (s : GossipState) (peer_id : String) : GossipState :=
  { s with peers := s.peers.filter (fun p => p.1 != peer_id) }

/-- `GossipProtocol::register_handler`. -/
def register_handler (s : GossipState) (t : GossipMessageType) : GossipState :=
  { s with handlers := t :: s.handlers }

/-- Cache eviction (`cleanup_cache` / the maintenance sweep): entries are
removed according to a predicate on the stored ids; which entries go is
wall-clock dependent in the source, so the predicate is arbitrary here. -/
def evict_cache (keep : String → Bool) (s : GossipState) : GossipState :=
  { s with message_cache := s.message_cache.filter (fun p => keep p.1) }

/-- One externally visible operation on a gossip node. -/
inductive GossipOp where
  | incoming (choose : Choice) (m : GossipMessage)
  | gossip (choose : Choice) (m : GossipMessage)
  | addPeer (p : String)
  | removePeer (p : String)
  | regHandler (t : GossipMessageType)
  | evict (keep : String → Bool)

def gossipStep (s : GossipState) : GossipOp → GossipState
  | .incoming choose m => handle_incoming_message choose s m
  | .gossip choose m => gossip_message choose s m
  | .addPeer p => add_peer s p
  | .removePeer p => remove_peer s p
  | .regHandler t => register_handler s t
  | .evict keep => evict_cache keep s

def gossipRun (s : GossipState) (ops : List GossipOp) : GossipState :=
  ops.foldl gossipStep s


/-! ## Consensus engine (`framework/src/consensus.rs`) -/

/-- The two `SolaceError` values constructed by `consensus.rs`.  (They are
referenced there as `SolaceError::InsufficientStake` /
`SolaceError::ValidatorNotFound`.) -/
inductive SolaceError where
  | InsufficientStake (stake min_stake : Nat)
  | ValidatorNotFound (agent_id : String)
deriving DecidableEq, Repr

/-- `ConsensusConfig` over an abstract field `K` standing for `f64`
(`block_time` is a `Duration`, unused by the modelled operations). -/
structure ConsensusConfig (K : Type) where
  validators_per_epoch : Nat
  min_validator_stake : Nat
  reputation_weight : K
  stake_weight : K
  max_consecutive_blocks : Nat
  epoch_duration : Nat
deriving DecidableEq

/-- `ConsensusConfig::default()`: 21 validators per epoch, minimum stake
1000, weights 0.4 / 0.6, 3 consecutive blocks, epoch of 1000 blocks. -/
def ConsensusConfig.standard (K : Type) [DivisionRing K] : ConsensusConfig K :=
  { validators_per_epoch := 21, min_validator_stake := 1000,
    reputation_weight := 4 / 10, stake_weight := 6 / 10,
    max_consecutive_blocks := 3, epoch_duration := 1000 }

/-- `Validator` from `consensus.rs` (`last_block_time : SystemTime` as an
integer timestamp, `UNIX_EPOCH` as 0). -/
structure Validator (K : Type) where
  agent_id : String
  stake : Nat
  reputation : K
  blocks_produced : Nat
  consecutive_blocks : Nat
  last_block_time : Nat
  is_active : Bool
  slashing_events : Nat
deriving DecidableEq

/-- `Validator::new`. -/
def Validator.new {K : Type} (agent_id : String) (stake : Nat) (reputation : K) :
    Validator K :=
  { agent_id := agent_id, stake := stake, reputation := reputation,
    blocks_produced := 0, consecutive_blocks := 0, last_block_time := 0,
    is_active := true, slashing_events := 0 }

/-- `Validator::calculate_weight`, with `f64::ln` supplied as `log`. -/
def Validator.calculate_weight {K : Type} [LinearOrderedField K] (log : K → K)
    (v : Validator K) (config : ConsensusConfig K) : K :=
  if v.is_active = false ∨ v.stake < config.min_validator_stake then 0
  else
    let stake_normalized : K := (v.stake : K) / 1000000
    let reputation_component := v.reputation * config.reputation_weight
    let stake_component := log stake_normalized * config.stake_weight
    let consecutive_penalty : K :=
      if config.max_consecutive_blocks ≤ v.consecutive_blocks then 5 / 10 else 1
    let slashing_penalty : K := (9 / 10 : K) ^ v.slashing_events
    (reputation_component + stake_component) * consecutive_penalty * slashing_penalty

/-- `BlockHeader` (`timestamp : SystemTime` as an integer; `Hash` is the hex
string produced by `calculate_block_hash`). -/
structure BlockHeader where
  height : Nat
  previous_hash : String
  merkle_root : String
  timestamp : Nat
  producer : String
  epoch : Nat
  nonce : Nat
deriving DecidableEq, Repr

inductive VoteType where
  | Approve
  | Reject
  | Abstain
deriving DecidableEq, Repr

/-- `ConsensusVote` (the signature is opaque data, omitted). -/
structure ConsensusVote where
  block_hash : String
  block_height : Nat
  voter : String
  vote_type : VoteType
  timestamp : Nat
deriving DecidableEq, Repr

/-- `Epoch`. -/
structure Epoch where
  number : Nat
  start_block : Nat
  end_block : Nat
  validators : List String
  block_producers : List (Nat × String)
deriving DecidableEq, Repr

/-- `ValidatorPerformance` (`uptime_percentage` is an `f64` that is never
read or written by the engine, omitted). -/
structure ValidatorPerformance where
  blocks_produced : Nat
  blocks_missed : Nat
  votes_cast : Nat
  votes_missed : Nat
deriving DecidableEq, Repr

def ValidatorPerformance.init : ValidatorPerformance :=
  { blocks_produced := 0, blocks_missed := 0, votes_cast := 0, votes_missed := 0 }

/-- `ConsensusEngine` state.  `block_history` is stored newest first, so the
`VecDeque` back (the last accepted header) is the list head. -/
structure ConsensusEngine (K : Type) where
  config : ConsensusConfig K
  validators : List (String × Validator K)
  current_epoch : Epoch
  pending_votes : List (String × List ConsensusVote)
  block_history : List BlockHeader
  validator_performance : List (String × ValidatorPerformance)
deriving DecidableEq

/-- `ConsensusEngine::new`. -/
def ConsensusEngine.new {K : Type} (config : ConsensusConfig K) : ConsensusEngine K :=
  { config := config, validators := [],
    current_epoch := { number := 0, start_block := 0,
                       end_block := config.epoch_duration, validators := [],
                       block_producers := [] },
    pending_votes := [], block_history := [], validator_performance := [] }

/-- `ConsensusEngine::register_validator`. -/
def register_validator {K : Type} (e : ConsensusEngine K) (agent_id : String)
    (stake : Nat) (reputation : K) : Except SolaceError (ConsensusEngine K) :=
  if stake < e.config.min_validator_stake then
    .error (.InsufficientStake stake e.config.min_validator_stake)
  else
    .ok { e with
      validators := (ainsert e.validators agent_id (Validator.new agent_id stake reputation)),
      validator_performance := (ainsert e.validator_performance agent_id ValidatorPerformance.init) }

/-- The per-validator mutation of `update_validator_stake`. -/
def set_stake {K : Type} (min_stake new_stake : Nat) (v : Validator K) : Validator K :=
  { v with stake := new_stake, is_active := decide (min_stake ≤ new_stake) }

/-- `ConsensusEngine::update_validator_stake`. -/
def update_validator_stake {K : Type} (e : ConsensusEngine K) (agent_id : String)
    (new_stake : Nat) : Except SolaceError (ConsensusEngine K) :=
  match alookup e.validators agent_id with
  | some _ =>
      .ok { e with validators :=
        (aupdate (set_stake e.config.min_validator_stake new_stake) e.validators agent_id) }
  | none => .error (.ValidatorNotFound agent_id)

/-- `ConsensusEngine::get_block_producer`: round-robin over the current
epoch's validator list. -/
def get_block_producer {K : Type} (e : ConsensusEngine K) (block_height : Nat) :
    Option String :=
  if e.current_epoch.validators.isEmpty then none
  else e.current_epoch.validators.get? (block_height % e.current_epoch.validators.length)

/-- `ConsensusEngine::validate_block`.  `hashFn` stands for
`calculate_block_hash` (SHA-256 of the serialized header — foreign code),
`now` for `SystemTime::now()`.  The Rust method takes `&self` and returns
`Ok(bool)`: it is a pure read of the engine state, which the embedding
reflects by returning only the `Bool`. -/
def validate_block {K : Type} (hashFn : BlockHeader → String) (now : Nat)
    (e : ConsensusEngine K) (header : BlockHeader) : Bool :=
  match get_block_producer e header.height with
  | none => false
  | some expected_producer =>
    if header.producer ≠ expected_producer then false
    else if now < header.timestamp then false
    else
      match e.block_history with
      | [] => true
      | last_block :: _ =>
        if header.height ≠ last_block.height + 1 then false
        else if header.previous_hash ≠ hashFn last_block then false
        else true

/-- `entry(hash).or_insert_with(Vec::new).push(vote)`. -/
def pushVote (l : List (String × List ConsensusVote)) (h : String)
    (v : ConsensusVote) : List (String × List ConsensusVote) :=
  match alookup l h with
  | some votes => ainsert l h (votes ++ [v])
  | none => ainsert l h [v]

/-- The per-validator performance bump of `process_vote`. -/
def bump_votes_cast (p : ValidatorPerformance) : ValidatorPerformance :=
  { p with votes_cast := p.votes_cast + 1 }

/-- `ConsensusEngine::process_vote`. -/
def process_vote {K : Type} (e : ConsensusEngine K) (vote : ConsensusVote) :
    Except SolaceError (ConsensusEngine K) :=
  if (alookup e.validators vote.voter).isSome = false then
    .error (.ValidatorNotFound vote.voter)
  else
    .ok { e with
      pending_votes := pushVote e.pending_votes vote.block_hash vote,
      validator_performance := (aupdate bump_votes_cast e.validator_performance vote.voter) }

/-- Sequential application of `process_vote`, failing on the first error. -/
def processVotes {K : Type} (e : ConsensusEngine K) :
    List ConsensusVote → Except SolaceError (ConsensusEngine K)
  | [] => .ok e
  | v :: rest =>
    match process_vote e v with
    | .ok e1 => processVotes e1 rest
    | .error err => .error err

/-- `ConsensusEngine::check_finalization`. -/
def check_finalization {K : Type} (e : ConsensusEngine K) (block_hash : String) :
    Bool :=
  match alookup e.pending_votes block_hash with
  | some votes =>
      let approve_votes := votes.countP (fun v => decide (v.vote_type = VoteType.Approve))
      let required_votes := e.current_epoch.validators.length * 2 / 3 + 1
      decide (required_votes ≤ approve_votes)
  | none => false

/-- The number of Approve votes recorded for a block hash. -/
def approveCount {K : Type} (e : ConsensusEngine K) (block_hash : String) : Nat :=
  ((alookup e.pending_votes block_hash).getD []).countP
    (fun v => decide (v.vote_type = VoteType.Approve))


/-! ## Concrete instances used by the scenario claims and witnesses -/

/-- A deterministic choice oracle: take the first `k` candidates. -/
def takeChoice : Choice := fun l k => l.take k

/-- A node with one peer and a handler registered for transaction
broadcasts. -/
def dupState : GossipState :=
  register_handler
    (add_peer (GossipProtocol.new "n0"
      { fanout := 3, message_ttl := 10, max_message_cache := 1000 }) "p1")
    GossipMessageType.TransactionBroadcast

/-- A fresh message from another node. -/
def dupMessage : GossipMessage :=
  { id := "m1", message_type := .TransactionBroadcast, sender_id := "other",
    ttl := 5, hop_count := 0, routing_path := [] }

/-- A fresh message with TTL 3, as in the spec scenario and the repository
test `test_message_forwarding`. -/
def ttl3Message : GossipMessage :=
  { id := "m3", message_type := .PeerAnnouncement, sender_id := "sender",
    ttl := 3, hop_count := 0, routing_path := [] }

/-- A message this node broadcasts itself. -/
def witMessage : GossipMessage :=
  { id := "w1", message_type := .StateUpdate, sender_id := "n1",
    ttl := 4, hop_count := 0, routing_path := [] }

/-- An approve vote for hash `h` by voter `v`. -/
def approveVote (h v : String) (height ts : Nat) : ConsensusVote :=
  { block_hash := h, block_height := height, voter := v,
    vote_type := VoteType.Approve, timestamp := ts }

/-- An engine with the default config, a 21-validator epoch, and a given
number of approve votes pending for block hash "H". -/
def quorumEngine (approvals : Nat) : ConsensusEngine ℚ :=
  { ConsensusEngine.new (ConsensusConfig.standard ℚ) with
      current_epoch := { number := 0, start_block := 0, end_block := 1000,
                         validators := List.replicate 21 "v", block_producers := [] },
      pending_votes := [("H", List.replicate approvals (approveVote "H" "v" 1 0))] }

/-- An engine with one registered validator and a 3-validator epoch. -/
def soloVoterEngine : ConsensusEngine ℚ :=
  { ConsensusEngine.new (ConsensusConfig.standard ℚ) with
      validators := [("v1", Validator.new "v1" 5000 (7 / 10))],
      validator_performance := [("v1", ValidatorPerformance.init)],
      current_epoch := { number := 0, start_block := 0, end_block := 1000,
                         validators := ["a", "b", "c"], block_producers := [] } }

/-- A genesis header. -/
def genesisHeader : BlockHeader :=
  { height := 0, previous_hash := "", merkle_root := "", timestamp := 0,
    producer := "p", epoch := 0, nonce := 0 }

/-- A stand-in block hash function. -/
def constHash : BlockHeader → String := fun _ => "h0"

/-- An engine whose history holds the genesis header, with a one-validator
epoch. -/
def chainEngine : ConsensusEngine ℚ :=
  { ConsensusEngine.new (ConsensusConfig.standard ℚ) with
      current_epoch := { number := 0, start_block := 0, end_block := 1000,
                         validators := ["p"], block_producers := [] },
      block_history := [genesisHeader] }

/-- A header whose height skips ahead of the chain tip. -/
def skipHeader : BlockHeader :=
  { height := 5, previous_hash := "h0", merkle_root := "", timestamp := 0,
    producer := "p", epoch := 0, nonce := 0 }

/-- An engine with an empty history and a two-validator epoch. -/
def freshEngine : ConsensusEngine ℚ :=
  { ConsensusEngine.new (ConsensusConfig.standard ℚ) with
      current_epoch := { number := 0, start_block := 0, end_block := 1000,
                         validators := ["p", "q"], block_producers := [] } }

/-- A header at an arbitrary height with an arbitrary previous hash, signed
by the producer the round-robin schedule assigns to height 7. -/
def wildHeader : BlockHeader :=
  { height := 7, previous_hash := "garbage", merkle_root := "", timestamp := 5,
    producer := "q", epoch := 0, nonce := 0 }

/-- A validator carrying penalty state. -/
def slashedValidator : Validator ℚ :=
  { agent_id := "s1", stake := 2000, reputation := 3 / 10,
    blocks_produced := 7, consecutive_blocks := 2, last_block_time := 99,
    is_active := false, slashing_events := 4 }

/-- An engine holding the slashed validator. -/
def slashedEngine : ConsensusEngine ℚ :=
  { ConsensusEngine.new (ConsensusConfig.standard ℚ) with
      validators := [("s1", slashedValidator)],
      validator_performance := [("s1", { blocks_produced := 7, blocks_missed := 1,
                                         votes_cast := 9, votes_missed := 2 })] }

/-- A validator for the weight-monotonicity witness. -/
def steadyValidator : Validator ℚ :=
  { agent_id := "w", stake := 5000, reputation := 1 / 2, blocks_produced := 0,
    consecutive_blocks := 0, last_block_time := 0, is_active := true,
    slashing_events := 1 }

/-- A configuration with unit weight coefficients, used to instantiate the
weight-monotonicity statement on decidable rational arithmetic. -/
def unitConfig : ConsensusConfig ℚ :=
  { validators_per_epoch := 21, min_validator_stake := 1000,
    reputation_weight := 1, stake_weight := 1,
    max_consecutive_blocks := 3, epoch_duration := 1000 }

/-! ## Theorems -/

theorem alookup_ainsert_self {α : Type} (l : List (String × α)) (k : String) (v : α) :
    alookup (ainsert l k v) k = some v := by
  induction l with
  | nil => simp [ainsert, alookup]
  | cons p rest ih =>
      obtain ⟨k', v'⟩ := p
      by_cases h : k' = k
      · simp [ainsert, alookup, h]
      · simp [ainsert, alookup, h, ih]

theorem mem_ainsert {α : Type} (l : List (String × α)) (k : String) (v : α)
    (p : String × α) (hp : p ∈ ainsert l k v) : p = (k, v) ∨ p ∈ l := by
  induction l with
  | nil => simpa [ainsert] using hp
  | cons q rest ih =>
      by_cases h : q.1 = k
      · simp only [ainsert] at hp
        rw [if_pos h] at hp
        rcases List.mem_cons.mp hp with h1 | h1
        · exact Or.inl h1
        · exact Or.inr (List.mem_cons_of_mem _ h1)
      · simp only [ainsert] at hp
        rw [if_neg h] at hp
        rcases List.mem_cons.mp hp with h1 | h1
        · exact Or.inr (h1 ▸ List.mem_cons_self _ _)
        · rcases ih h1 with h2 | h2
          · exact Or.inl h2
          · exact Or.inr (List.mem_cons_of_mem _ h2)

theorem alookup_mem {α : Type} (l : List (String × α)) (k : String) (v : α)
    (h : alookup l k = some v) : (k, v) ∈ l := by
  induction l with
  | nil => simp [alookup] at h
  | cons p rest ih =>
      obtain ⟨k', v'⟩ := p
      by_cases hk : k' = k
      · simp [alookup, hk] at h
        subst hk h
        exact List.mem_cons_self _ _
      · simp [alookup, hk] at h
        exact List.mem_cons_of_mem _ (ih h)



/-! ### Gossip cache behaviour -/

theorem forward_fst_id (m : GossipMessage) (node : String) :
    (m.forward node).1.id = m.id := by
  unfold GossipMessage.forward
  split <;> rfl

theorem process_message_cache (s : GossipState) (m : GossipMessage) :
    (process_message s m).message_cache = s.message_cache := by
  unfold process_message update_peer_info
  split <;> rfl

theorem forward_message_cache_of_none (choose : Choice) (s : GossipState)
    (m : GossipMessage) (h : alookup s.message_cache m.id = none) :
    (forward_message choose s m).message_cache = s.message_cache := by
  unfold forward_message
  dsimp only
  split
  · rfl
  · rw [forward_fst_id, h]

theorem handle_incoming_cache (choose : Choice) (s : GossipState)
    (m : GossipMessage) :
    (handle_incoming_message choose s m).message_cache = s.message_cache := by
  unfold handle_incoming_message
  dsimp only
  split
  · rfl
  · split
    · rfl
    · rename_i hdup _
      have hnone : alookup s.message_cache m.id = none := by
        unfold is_duplicate at hdup
        exact Option.not_isSome_iff_eq_none.mp (by simpa using hdup)
      split
      · rw [forward_message_cache_of_none, process_message_cache]
        rw [process_message_cache]
        exact hnone
      · rw [process_message_cache]

theorem gossip_message_cache (choose : Choice) (s : GossipState)
    (m : GossipMessage) :
    (gossip_message choose s m).message_cache =
      ainsert s.message_cache m.id { message := m, forwarded_to := [] } := rfl

/-- Every cache entry has an empty forward-set. -/
def cacheForwardEmpty (s : GossipState) : Prop :=
  ∀ p ∈ s.message_cache, p.2.forwarded_to = []

theorem gossipStep_preserves (s : GossipState) (op : GossipOp)
    (hinv : cacheForwardEmpty s) : cacheForwardEmpty (gossipStep s op) := by
  cases op with
  | incoming choose m =>
      intro p hp
      simp only [gossipStep, handle_incoming_cache] at hp
      exact hinv p hp
  | gossip choose m =>
      intro p hp
      simp only [gossipStep, gossip_message_cache] at hp
      rcases mem_ainsert _ _ _ p hp with h1 | h1
      · rw [h1]
      · exact hinv p h1
  | addPeer q => intro p hp; exact hinv p hp
  | removePeer q => intro p hp; exact hinv p hp
  | regHandler tt => intro p hp; exact hinv p hp
  | evict keep =>
      intro p hp
      exact hinv p (List.mem_of_mem_filter hp)

theorem gossipRun_preserves (ops : List GossipOp) :
    ∀ s : GossipState, cacheForwardEmpty s → cacheForwardEmpty (gossipRun s ops) := by
  induction ops with
  | nil => intro s h; exact h
  | cons op rest ih =>
      intro s h
      exact ih (gossipStep s op) (gossipStep_preserves s op h)

/-- C2: the claim that delivering the same message twice is idempotent
(handler invoked once, second delivery counted as a duplicate) FAILS on the
code: `handle_incoming_message` never inserts incoming messages into the
message cache (`cache_message` is only called from `gossip_message`), so the
second delivery of `dupMessage` is not detected as a duplicate — the
registered handler runs twice and `duplicates_filtered` stays 0. -/
theorem double_delivery_not_idempotent :
    (handle_incoming_message takeChoice
        (handle_incoming_message takeChoice dupState dupMessage) dupMessage).handler_log
      = ["m1", "m1"]
    ∧ (handle_incoming_message takeChoice
        (handle_incoming_message takeChoice dupState dupMessage) dupMessage).stats.duplicates_filtered
      = 0 := by
  constructor
  · rfl
  · rfl

/-- C3: the scenario "forwards at A, B and C all return true, the fourth
forward at D returns false" FAILS on the code: for a message created with
TTL 3 the THIRD call (`forward "C"`) already returns false, because `forward`
first decrements the TTL to 0 and then reports expiry — even though it still
mutates the message (C is appended to the routing path).  The repository's
own test `test_message_forwarding` asserts the third call returns true. -/
theorem ttl3_third_forward_fails :
    (ttl3Message.forward "A").2 = true
    ∧ ((ttl3Message.forward "A").1.forward "B").2 = true
    ∧ (((ttl3Message.forward "A").1.forward "B").1.forward "C").2 = false
    ∧ (((ttl3Message.forward "A").1.forward "B").1.forward "C").1.routing_path
        = ["A", "B", "C"] := by
  refine ⟨rfl, rfl, rfl, rfl⟩

/-- C4: across any sequence of operations on a gossip node, the forward-set
of every cached message stays within the configured fanout.  (In fact it
stays empty: `forward_message` only extends a forward-set when the message
id is already cached, and `handle_incoming_message` only reaches it when the
id is not cached.) -/
theorem fanout_cap (node : String) (cfg : GossipConfig) (ops : List GossipOp)
    (id : String) (entry : CacheEntry)
    (h : alookup (gossipRun (GossipProtocol.new node cfg) ops).message_cache id
          = some entry) :
    entry.forwarded_to.length ≤ cfg.fanout := by
  have hinit : cacheForwardEmpty (GossipProtocol.new node cfg) := by
    intro p hp
    exact absurd hp (List.not_mem_nil p)
  have hempty := gossipRun_preserves ops _ hinit (id, entry) (alookup_mem _ _ _ h)
  simp only at hempty
  rw [hempty]
  exact Nat.zero_le _

/-- Witness for C4 at a concrete run: one broadcast of `witMessage`. -/
theorem fanout_cap_witness :
    alookup (gossipRun (GossipProtocol.new "n1"
          { fanout := 3, message_ttl := 10, max_message_cache := 1000 })
        [GossipOp.gossip takeChoice witMessage]).message_cache "w1"
      = some { message := witMessage, forwarded_to := [] }
    ∧ ({ message := witMessage, forwarded_to := [] } : CacheEntry).forwarded_to.length ≤ 3 :=
  ⟨by decide, fanout_cap "n1"
      { fanout := 3, message_ttl := 10, max_message_cache := 1000 }
      [GossipOp.gossip takeChoice witMessage] "w1"
      { message := witMessage, forwarded_to := [] } (by decide)⟩


/-! ### Consensus: quorum counting and vote accumulation -/

theorem check_finalization_iff_aux {K : Type} (e : ConsensusEngine K) (h : String) :
    check_finalization e h = true ↔
      e.current_epoch.validators.length * 2 / 3 + 1 ≤ approveCount e h := by
  unfold check_finalization approveCount
  cases hl : alookup e.pending_votes h with
  | none => simp
  | some votes => simp

theorem countP_replicate_approve (k : Nat) (v : ConsensusVote)
    (hv : v.vote_type = VoteType.Approve) :
    (List.replicate k v).countP (fun w => decide (w.vote_type = VoteType.Approve)) = k := by
  induction k with
  | zero => rfl
  | succ n ih => simp [List.replicate_succ, List.countP_cons, hv, ih]

theorem alookup_pushVote (l : List (String × List ConsensusVote)) (h : String)
    (v : ConsensusVote) :
    alookup (pushVote l h v) h = some ((alookup l h).getD [] ++ [v]) := by
  unfold pushVote
  cases hl : alookup l h with
  | none => simp [hl, alookup_ainsert_self]
  | some votes => simp [hl, alookup_ainsert_self]

theorem process_vote_ok {K : Type} (e : ConsensusEngine K) (vote : ConsensusVote)
    (hreg : (alookup e.validators vote.voter).isSome = true) :
    process_vote e vote = .ok { e with
      pending_votes := pushVote e.pending_votes vote.block_hash vote,
      validator_performance := (aupdate bump_votes_cast e.validator_performance vote.voter) } := by
  unfold process_vote
  rw [hreg]
  rfl

theorem processVotes_replicate {K : Type} (k : Nat) :
    ∀ (e : ConsensusEngine K) (vote : ConsensusVote) (acc : List ConsensusVote),
      (alookup e.validators vote.voter).isSome = true →
      alookup e.pending_votes vote.block_hash = some acc →
      ∃ e', processVotes e (List.replicate k vote) = .ok e'
        ∧ alookup e'.pending_votes vote.block_hash = some (acc ++ List.replicate k vote)
        ∧ e'.current_epoch = e.current_epoch := by
  induction k with
  | zero =>
      intro e vote acc hreg hacc
      exact ⟨e, rfl, by simpa using hacc, rfl⟩
  | succ n ih =>
      intro e vote acc hreg hacc
      have hstep := process_vote_ok e vote hreg
      set e1 : ConsensusEngine K := { e with
        pending_votes := pushVote e.pending_votes vote.block_hash vote,
        validator_performance := (aupdate bump_votes_cast e.validator_performance vote.voter) } with he1
      have hacc1 : alookup e1.pending_votes vote.block_hash = some (acc ++ [vote]) := by
        rw [he1]
        rw [alookup_pushVote, hacc]
        rfl
      have hreg1 : (alookup e1.validators vote.voter).isSome = true := hreg
      obtain ⟨e', h1, h2, h3⟩ := ih e1 vote (acc ++ [vote]) hreg1 hacc1
      refine ⟨e', ?_, ?_, ?_⟩
      · rw [List.replicate_succ]
        unfold processVotes
        rw [hstep]
        exact h1
      · rw [h2, List.replicate_succ, List.append_assoc, List.singleton_append]
      · rw [h3]

/-- C1: `check_finalization(h)` returns true iff the number of Approve votes
recorded for `h` is at least `⌊2n/3⌋ + 1` where `n` is the size of the
current epoch's validator set; concretely with a 21-validator epoch, 15
approve votes for "H" finalize it and 14 do not. -/
theorem check_finalization_quorum :
    (∀ (K : Type) (e : ConsensusEngine K) (h : String),
        check_finalization e h = true ↔
          e.current_epoch.validators.length * 2 / 3 + 1 ≤ approveCount e h)
    ∧ check_finalization (quorumEngine 15) "H" = true
    ∧ check_finalization (quorumEngine 14) "H" = false :=
  ⟨fun _ e h => check_finalization_iff_aux e h, by decide, by decide⟩

/-- C8: `process_vote` does not deduplicate votes per voter: a single
registered validator submitting `⌊2n/3⌋ + 1` Approve votes for the same hash
succeeds every time, each vote is appended, and `check_finalization` then
returns true although only one distinct validator voted. -/
theorem process_vote_no_dedup {K : Type} (e : ConsensusEngine K)
    (voter bhash : String) (height ts : Nat)
    (hreg : (alookup e.validators voter).isSome = true)
    (hnone : alookup e.pending_votes bhash = none) :
    ∃ e', processVotes e
        (List.replicate (e.current_epoch.validators.length * 2 / 3 + 1)
          (approveVote bhash voter height ts)) = .ok e'
      ∧ alookup e'.pending_votes bhash =
          some (List.replicate (e.current_epoch.validators.length * 2 / 3 + 1)
            (approveVote bhash voter height ts))
      ∧ check_finalization e' bhash = true := by
  have hv : (approveVote bhash voter height ts).voter = voter := rfl
  have hb : (approveVote bhash voter height ts).block_hash = bhash := rfl
  have hstep := process_vote_ok e (approveVote bhash voter height ts) hreg
  set e1 : ConsensusEngine K := { e with
    pending_votes := pushVote e.pending_votes bhash (approveVote bhash voter height ts),
    validator_performance := (aupdate bump_votes_cast e.validator_performance voter) } with he1
  have hacc1 : alookup e1.pending_votes bhash = some [approveVote bhash voter height ts] := by
    rw [he1]
    rw [alookup_pushVote, hnone]
    rfl
  have hreg1 : (alookup e1.validators voter).isSome = true := hreg
  obtain ⟨e', h1, h2, h3⟩ :=
    processVotes_replicate (e.current_epoch.validators.length * 2 / 3) e1
      (approveVote bhash voter height ts) [approveVote bhash voter height ts] hreg1 hacc1
  rw [hb] at h2
  have hfinal : alookup e'.pending_votes bhash =
      some (List.replicate (e.current_epoch.validators.length * 2 / 3 + 1)
        (approveVote bhash voter height ts)) := by
    rw [h2, List.singleton_append, ← List.replicate_succ]
  refine ⟨e', ?_, hfinal, ?_⟩
  · rw [List.replicate_succ]
    unfold processVotes
    rw [hstep]
    exact h1
  · unfold check_finalization
    rw [hfinal]
    have hcount := countP_replicate_approve
      (e.current_epoch.validators.length * 2 / 3 + 1) (approveVote bhash voter height ts) rfl
    simp only [hcount]
    have hep : e'.current_epoch = e.current_epoch := by rw [h3]
    rw [hep]
    simp

/-- Witness for C8: one validator, a 3-validator epoch (quorum 3), three
approve votes. -/
theorem process_vote_no_dedup_witness :
    (alookup soloVoterEngine.validators "v1").isSome = true
    ∧ alookup soloVoterEngine.pending_votes "H" = none
    ∧ ∃ e', processVotes soloVoterEngine
          (List.replicate (soloVoterEngine.current_epoch.validators.length * 2 / 3 + 1)
            (approveVote "H" "v1" 1 0)) = .ok e'
        ∧ alookup e'.pending_votes "H" =
            some (List.replicate (soloVoterEngine.current_epoch.validators.length * 2 / 3 + 1)
              (approveVote "H" "v1" 1 0))
        ∧ check_finalization e' "H" = true :=
  ⟨by decide, by decide,
    process_vote_no_dedup soloVoterEngine "v1" "H" 1 0 (by decide) (by decide)⟩


/-! ### Consensus: block validation and validator registration -/

/-- C5: once at least one block has been accepted, `validate_block` returns
false whenever the header's height is not the last accepted height plus one
or its previous-hash differs from the locally computed hash of the last
accepted header.  `validate_block` takes `&self` in the source and is
modelled as a pure function of the engine state, so it cannot modify block
history, validators, votes or the epoch. -/
theorem validate_block_rejects {K : Type} (hashFn : BlockHeader → String)
    (now : Nat) (e : ConsensusEngine K) (header last_block : BlockHeader)
    (rest : List BlockHeader)
    (hhist : e.block_history = last_block :: rest)
    (hbad : header.height ≠ last_block.height + 1
            ∨ header.previous_hash ≠ hashFn last_block) :
    validate_block hashFn now e header = false := by
  unfold validate_block
  rcases hgp : get_block_producer e header.height with _ | p
  · rfl
  · rw [hhist]
    by_cases h1 : header.producer ≠ p
    · simp [h1]
    · by_cases h2 : now < header.timestamp
      · simp [h1, h2]
      · rcases hbad with h3 | h3
        · simp [h1, h2, h3]
        · by_cases h4 : header.height ≠ last_block.height + 1
          · simp [h1, h2, h4]
          · simp [h1, h2, h4, h3]

/-- Witness for C5: a chain whose tip is the genesis header rejects a header
of height 5. -/
theorem validate_block_rejects_witness :
    chainEngine.block_history = [genesisHeader]
    ∧ (skipHeader.height ≠ genesisHeader.height + 1
       ∨ skipHeader.previous_hash ≠ constHash genesisHeader)
    ∧ validate_block constHash 10 chainEngine skipHeader = false :=
  ⟨rfl, Or.inl (by decide),
    validate_block_rejects constHash 10 chainEngine skipHeader genesisHeader []
      rfl (Or.inl (by decide))⟩

/-- C9: with an empty block history, `validate_block` performs no
height-sequence or previous-hash check at all: any header of any height and
any previous hash is accepted, provided its producer is the round-robin
producer for that height and its timestamp is not in the future. -/
theorem validate_block_genesis_permissive {K : Type}
    (hashFn : BlockHeader → String) (now : Nat) (e : ConsensusEngine K)
    (header : BlockHeader)
    (hhist : e.block_history = [])
    (hprod : get_block_producer e header.height = some header.producer)
    (hts : header.timestamp ≤ now) :
    validate_block hashFn now e header = true := by
  unfold validate_block
  rw [hprod, hhist]
  simp [Nat.not_lt.mpr hts]

/-- Witness for C9: height 7 with previous-hash "garbage" is accepted on an
empty history when produced by the schedule's validator for height 7. -/
theorem validate_block_genesis_witness :
    freshEngine.block_history = []
    ∧ get_block_producer freshEngine wildHeader.height = some wildHeader.producer
    ∧ wildHeader.timestamp ≤ 10
    ∧ validate_block constHash 10 freshEngine wildHeader = true :=
  ⟨rfl, by decide, by decide,
    validate_block_genesis_permissive constHash 10 freshEngine wildHeader
      rfl (by decide) (by decide)⟩

/-- C10: re-registering an already-registered validator with sufficient
stake succeeds and replaces the stored record with a fresh `Validator::new`
one — blocks produced, consecutive blocks and slashing events reset to 0,
`is_active` reset to true — and its performance record is reset too. -/
theorem register_validator_resets {K : Type} (e : ConsensusEngine K)
    (agent_id : String) (old : Validator K) (stake : Nat) (rep : K)
    (_hold : alookup e.validators agent_id = some old)
    (hstake : e.config.min_validator_stake ≤ stake) :
    ∃ e', register_validator e agent_id stake rep = .ok e'
      ∧ alookup e'.validators agent_id = some
          { agent_id := agent_id, stake := stake, reputation := rep,
            blocks_produced := 0, consecutive_blocks := 0, last_block_time := 0,
            is_active := true, slashing_events := 0 }
      ∧ alookup e'.validator_performance agent_id = some ValidatorPerformance.init := by
  refine ⟨{ e with
      validators := (ainsert e.validators agent_id (Validator.new agent_id stake rep)),
      validator_performance := (ainsert e.validator_performance agent_id ValidatorPerformance.init) },
    ?_, ?_, ?_⟩
  · unfold register_validator
    rw [if_neg (Nat.not_lt.mpr hstake)]
  · exact alookup_ainsert_self e.validators agent_id (Validator.new agent_id stake rep)
  · exact alookup_ainsert_self e.validator_performance agent_id ValidatorPerformance.init

/-- Witness for C10: a deactivated validator with 4 slashing events
re-registers with stake 3000 and gets a clean record. -/
theorem register_validator_resets_witness :
    alookup slashedEngine.validators "s1" = some slashedValidator
    ∧ slashedEngine.config.min_validator_stake ≤ 3000
    ∧ ∃ e', register_validator slashedEngine "s1" 3000 (9 / 10) = .ok e'
        ∧ alookup e'.validators "s1" = some
            { agent_id := "s1", stake := 3000, reputation := (9 / 10 : ℚ),
              blocks_produced := 0, consecutive_blocks := 0, last_block_time := 0,
              is_active := true, slashing_events := 0 }
        ∧ alookup e'.validator_performance "s1" = some ValidatorPerformance.init :=
  ⟨rfl, by decide,
    register_validator_resets slashedEngine "s1" slashedValidator 3000 (9 / 10)
      rfl (by decide)⟩


/-! ### Consensus: validator weight -/

/-- C7: with stake, activity, penalties and configuration fixed and the
weight coefficients non-negative, `calculate_weight` is monotone in the
reputation; and any validator whose stake is below `min_validator_stake`
has weight exactly 0. -/
theorem calculate_weight_monotone {K : Type} [LinearOrderedField K]
    (log : K → K) (config : ConsensusConfig K) (v : Validator K) (r1 r2 : K)
    (hrw : 0 ≤ config.reputation_weight) (_hsw : 0 ≤ config.stake_weight)
    (h12 : r1 ≤ r2) :
    Validator.calculate_weight log { v with reputation := r1 } config ≤
      Validator.calculate_weight log { v with reputation := r2 } config
    ∧ (v.stake < config.min_validator_stake →
        Validator.calculate_weight log v config = 0) := by
  constructor
  · unfold Validator.calculate_weight
    dsimp only
    split_ifs with hc hpen
    · exact le_refl 0
    · have hsp : (0 : K) ≤ (9 / 10 : K) ^ v.slashing_events := by positivity
      have hr : r1 * config.reputation_weight ≤ r2 * config.reputation_weight :=
        mul_le_mul_of_nonneg_right h12 hrw
      exact mul_le_mul_of_nonneg_right
        (mul_le_mul_of_nonneg_right
          (add_le_add_right hr (log ((v.stake : K) / 1000000) * config.stake_weight))
          (by norm_num)) hsp
    · have hsp : (0 : K) ≤ (9 / 10 : K) ^ v.slashing_events := by positivity
      have hr : r1 * config.reputation_weight ≤ r2 * config.reputation_weight :=
        mul_le_mul_of_nonneg_right h12 hrw
      exact mul_le_mul_of_nonneg_right
        (mul_le_mul_of_nonneg_right
          (add_le_add_right hr (log ((v.stake : K) / 1000000) * config.stake_weight))
          (by norm_num)) hsp
  · intro hs
    unfold Validator.calculate_weight
    rw [if_pos (Or.inr hs)]

/-- Witness for C7 over `ℚ` with unit weight coefficients, reputations
0 ≤ 1, and a once-slashed validator of stake 5000. -/
theorem calculate_weight_monotone_witness :
    (0 : ℚ) ≤ unitConfig.reputation_weight
    ∧ (0 : ℚ) ≤ unitConfig.stake_weight
    ∧ (0 : ℚ) ≤ 1
    ∧ (Validator.calculate_weight (id : ℚ → ℚ) { steadyValidator with reputation := 0 }
          unitConfig ≤
        Validator.calculate_weight (id : ℚ → ℚ) { steadyValidator with reputation := 1 }
          unitConfig
       ∧ (steadyValidator.stake < unitConfig.min_validator_stake →
          Validator.calculate_weight (id : ℚ → ℚ) steadyValidator unitConfig = 0)) :=
  ⟨by decide, by decide, by decide,
    calculate_weight_monotone (id : ℚ → ℚ) unitConfig steadyValidator 0 1
      (by decide) (by decide) (by decide)⟩

/-- C6: under the default configuration, registering with stake 500 fails
with `InsufficientStake` and leaves the validator set unchanged, and
registering with stake 5000 and reputation 0.7 succeeds — but the claim
that the resulting validator has weight > 0 FAILS on the code: the weight
is `0.7·0.4 + ln(5000/10⁶)·0.6 ≈ −2.9 < 0`, because `ln` of a normalized
stake below one million is negative.  (The repository's own test
`test_validator_weight_calculation` asserts a positive weight at stake
10000 and fails the same way.) -/
theorem default_config_weight_negative :
    register_validator (ConsensusEngine.new (ConsensusConfig.standard ℝ)) "agent" 500 (8 / 10)
      = .error (.InsufficientStake 500 1000)
    ∧ register_validator (ConsensusEngine.new (ConsensusConfig.standard ℝ)) "agent" 5000 (7 / 10)
      = .ok { ConsensusEngine.new (ConsensusConfig.standard ℝ) with
          validators := [("agent", Validator.new "agent" 5000 (7 / 10))],
          validator_performance := [("agent", ValidatorPerformance.init)] }
    ∧ Validator.calculate_weight Real.log (Validator.new "agent" 5000 (7 / 10))
        (ConsensusConfig.standard ℝ) < 0 := by
  refine ⟨rfl, rfl, ?_⟩
  have hx : (0 : ℝ) < (5000 : ℝ) / 1000000 := by norm_num
  have hlog : Real.log ((5000 : ℝ) / 1000000) ≤ (5000 : ℝ) / 1000000 - 1 :=
    Real.log_le_sub_one_of_pos hx
  have hval : Validator.calculate_weight Real.log (Validator.new "agent" 5000 (7 / 10))
      (ConsensusConfig.standard ℝ)
      = ((7 / 10) * (4 / 10) + Real.log ((5000 : ℝ) / 1000000) * (6 / 10)) * 1 * 1 := by
    unfold Validator.calculate_weight Validator.new ConsensusConfig.standard
    norm_num
  rw [hval]
  nlinarith [hlog]

end Solace
